import Mathlib

/-!
Shallow embedding of the analytics aggregation and transformation pipeline of
the WMR country-profiles application.

Sources embedded here:
* `src/unnamed/part_001` — the data-processing service (`processPolicyValue`,
  `getOptionSetValue`, `processCountryData` with its row-merge step, policy
  catalog, policy filter/sort/interpretation, and country-classification
  flags).  This file is the current revision of the data-processing service:
  it alone contains the oral-monotherapy (`MrVSpLKqDsp`) interpretation
  branch, the text classification of the therapeutic-efficacy year fields,
  and the `isE2025Country` import that the specification describes.  The
  sibling copy `src/src/services/dataProcessingService.ts` is an older
  revision of the same class and is superseded by it.
* `src/src/services/dataTransformationService.ts` — the transformation
  engine (`TransformationRule`, the default rule registry, `getRules`,
  `transformValue`, `transformAnalyticsRows`).
* `src/src/config/dhis2DataElements.ts` — `E2025_COUNTRIES` and
  `isE2025Country`.

Modelling conventions:
* JavaScript numbers are modelled as exact rationals extended with the two
  infinities (`JSNum`).  IEEE-754 rounding is not modelled; no claim below
  depends on rounding.  `NaN` never needs to be stored in a merged map (the
  merge step replaces an unparsable value by `0` before storing), so a
  possibly-`NaN` intermediate is modelled as `Option JSNum` with `none`
  playing the role of `NaN`.
* JavaScript `Map` objects are modelled as association lists where `set`
  conses the new binding to the front and `get` returns the first binding,
  so lookups observe exactly the last write, as in the source.
* Fallible remote calls are modelled as `Except`-valued inputs.
-/

namespace WMR

/-- A JavaScript number that can arise in this pipeline: a finite value
(exact rational) or one of the two infinities. -/
inductive JSNum where
  | fin (q : ℚ)
  | posInf
  | negInf
deriving DecidableEq

/-- Characters skipped by `parseFloat` before reading a number (the ASCII
whitespace and line-terminator characters; the exotic Unicode space code
points never occur in the data handled by the claims). -/
def isJsWhitespace (c : Char) : Bool :=
  c = ' ' || c = '\t' || c = '\n' || c = '\r' || c = '\x0b' || c = '\x0c'

/-- Numeric value of a list of decimal digit characters. -/
def digitsToNat (ds : List Char) : Nat :=
  ds.foldl (fun acc c => acc * 10 + (c.toNat - 48)) 0

/-- JavaScript `parseFloat`: skip leading whitespace, read an optional sign,
then the longest prefix that is an `Infinity` literal or a decimal literal
(integer digits, optional fraction, optional well-formed exponent).  `none`
models the `NaN` result.  The value
`±(intDigits.fracDigits) × 10 ^ exponent` is assembled as a single scaled
integer fraction `mkRat (± digits × 10 ^ max(e,0)) (10 ^ max(-e,0))` with
`e = exponent - fracDigits.length`, which is the same rational. -/
def jsParseFloat (s : String) : Option JSNum :=
  let cs := s.toList.dropWhile isJsWhitespace
  let signAndRest : Bool × List Char :=
    match cs with
    | '-' :: rest => (true, rest)
    | '+' :: rest => (false, rest)
    | _ => (false, cs)
  let neg := signAndRest.1
  let cs := signAndRest.2
  if cs.take 8 = "Infinity".toList then
    some (if neg then JSNum.negInf else JSNum.posInf)
  else
    let intDs := cs.takeWhile Char.isDigit
    let cs1 := cs.dropWhile Char.isDigit
    let fracAndRest : List Char × List Char :=
      match cs1 with
      | '.' :: rest => (rest.takeWhile Char.isDigit, rest.dropWhile Char.isDigit)
      | _ => ([], cs1)
    let fracDs := fracAndRest.1
    let cs2 := fracAndRest.2
    if intDs.isEmpty && fracDs.isEmpty then
      none
    else
      let expVal : Int :=
        match cs2 with
        | c :: rest =>
          if c = 'e' || c = 'E' then
            let esignAndRest : Int × List Char :=
              match rest with
              | '-' :: r => (-1, r)
              | '+' :: r => (1, r)
              | _ => (1, rest)
            let eds := esignAndRest.2.takeWhile Char.isDigit
            if eds.isEmpty then 0 else esignAndRest.1 * (digitsToNat eds : Int)
          else 0
        | [] => 0
      let allDigits : Int := digitsToNat (intDs ++ fracDs)
      let signedDigits := if neg then -allDigits else allDigits
      let netExp : Int := expVal - fracDs.length
      some (JSNum.fin
        (if 0 ≤ netExp then
          mkRat (signedDigits * (10 : Int) ^ netExp.toNat) 1
        else
          mkRat signedDigits ((10 : Nat) ^ (-netExp).toNat)))

/-- JavaScript `parseFloat(raw) || 0` as used by the numeric branch of the
merge step: `NaN` (and a parsed `0`, which `||` also replaces by the same
`0`) becomes `0`. -/
def jsParseFloatOr0 (s : String) : JSNum :=
  (jsParseFloat s).getD (JSNum.fin 0)

/-- JavaScript `String.prototype.trim`: strip leading and trailing
whitespace. -/
def jsTrim (s : String) : String :=
  String.mk (((s.toList.dropWhile isJsWhitespace).reverse.dropWhile isJsWhitespace).reverse)

/-- JavaScript `maybeString || default` on an optional string: the default is
taken when the value is absent or is the empty string (the only falsy
string). -/
def jsStringOr (o : Option String) (d : String) : String :=
  match o with
  | some v => if v = "" then d else v
  | none => d

/-- Lookup in an association-list model of a JavaScript `Map`: the first
(most recently written) binding wins. -/
def assocLookup (m : List (String × α)) (k : String) : Option α :=
  (m.find? (fun p => p.1 = k)).map (·.2)

/-- `Map.set`: the new binding shadows any earlier one. -/
def assocSet (m : List (String × α)) (k : String) (v : α) : List (String × α) :=
  (k, v) :: m

/-! ## Transformation engine (`src/src/services/dataTransformationService.ts`) -/

/-- The closed enumeration of transformation rules
(`export type TransformationRule`). -/
inductive TransformationRule where
  | multiplyBy100
  | cut100
  | nullZeros
  | none
deriving DecidableEq

/-- The default rule registry built by `initializeDefaultRules` in the
constructor of `DataTransformationService`. -/
def transformationRules : List (String × List TransformationRule) :=
  [ ("BJXyRAkf2HZ", [.multiplyBy100])
  , ("Uvn6LCg7dVU", [.multiplyBy100])
  , ("o4iFtiN0YZh", [.multiplyBy100])
  , ("Rdbxu0qoX8U", [.multiplyBy100])
  , ("niYxtlxx68s", [.multiplyBy100, .nullZeros, .cut100])
  , ("IGQENa04DFm", [.nullZeros])
  , ("heI5NQZqZRW", [.nullZeros])
  , ("ZoMFYowPAkO", [.multiplyBy100, .nullZeros])
  , ("eVYQuP1faAt", [.multiplyBy100, .nullZeros])
  , ("ZnSwOwcQt52", [.nullZeros])
  , ("gZrHErmb74i", [.nullZeros])
  , ("P7pI8pyU313", [.nullZeros])
  , ("jDevPHyqPDX", [.nullZeros])
  , ("Ruv1osltwn4", [.cut100, .nullZeros])
  , ("SQWZ8POEhMI", [.nullZeros])
  , ("rVUHAOEXV67", [.multiplyBy100])
  , ("LSlfr3VzLCp", [.nullZeros])
  ]

/-- `getRules`: the registered rule list, or `['none']` for an unregistered
identifier. -/
def getRules (uid : String) : List TransformationRule :=
  (assocLookup transformationRules uid).getD [.none]

/-- `value * 100` on a JavaScript number. -/
def jsMul100 : JSNum → JSNum
  | .fin q => .fin (q * 100)
  | .posInf => .posInf
  | .negInf => .negInf

/-- `Math.min(value, 100)` on a JavaScript number. -/
def jsMin100 : JSNum → JSNum
  | .fin q => .fin (min q 100)
  | .posInf => .fin 100
  | .negInf => .negInf

/-- One arm of the `switch` in `transformValue`: apply a single rule to a
non-null value; `none` as a result models the assignment of `null` by
`nullZeros`. -/
def applyRule (v : JSNum) : TransformationRule → Option JSNum
  | .multiplyBy100 => some (jsMul100 v)
  | .cut100 => some (jsMin100 v)
  | .nullZeros => if v = .fin 0 then Option.none else some v
  | .none => some v

/-- The `for (const rule of rules)` loop of `transformValue`, including the
`if (transformedValue === null) break` short-circuit. -/
def runRules : List TransformationRule → JSNum → Option JSNum
  | [], v => some v
  | r :: rs, v =>
    match applyRule v r with
    | Option.none => Option.none
    | some v' => runRules rs v'

/-- `transformValue(value, dataElementUID)`: null in, null out; otherwise run
the identifier's rule chain. -/
def transformValue (value : Option JSNum) (dataElementUID : String) : Option JSNum :=
  match value with
  | Option.none => Option.none
  | some v => runRules (getRules dataElementUID) v

/-- Spec-side definition for the refinement comparison: one step of the left-to-right fold described by
the Transformation Engine contract — `multiplyBy100` multiplies by 100,
`cut100` takes `min(value, 100)`, `nullZeros` maps 0 to null, `none` is the
identity, and a null accumulator is left unchanged (the fold halts once the
value becomes null). -/
def specFoldStep (acc : Option JSNum) (r : TransformationRule) : Option JSNum :=
  match acc with
  | Option.none => Option.none
  | some v =>
    match r with
    | .multiplyBy100 => some (jsMul100 v)
    | .cut100 => some (jsMin100 v)
    | .nullZeros => if v = .fin 0 then Option.none else some v
    | .none => some v

/-- Spec-side definition for the refinement comparison: the Transformation Engine's `apply` as the
left-to-right fold of the identifier's registered rule list. -/
def specApply (uid : String) (value : Option JSNum) : Option JSNum :=
  (getRules uid).foldl specFoldStep value

/-- Rendering of a JavaScript number used by `transformAnalyticsRows` when a
transformed value is written back (`transformedValue.toString()`).  The exact
JavaScript numeral formatting is not reproduced; no claim below depends on
this rendering, only on the branches where the original cell is kept. -/
def jsNumToString : JSNum → String
  | .fin q => toString q
  | .posInf => "Infinity"
  | .negInf => "-Infinity"

/-- The per-row body of `transformAnalyticsRows`: rows with fewer than four
cells and rows whose value cell parses to `NaN` are returned unchanged;
otherwise a fresh four-cell row is built, keeping the original raw value
when the transformation result is null. -/
def transformRow (row : List String) : List String :=
  if row.length < 4 then row
  else
    match jsParseFloat (row.getD 3 "") with
    | Option.none => row
    | some rawValue =>
      let transformedValue := transformValue (some rawValue) (row.getD 0 "")
      [ row.getD 0 ""
      , row.getD 1 ""
      , row.getD 2 ""
      , match transformedValue with
        | some v => jsNumToString v
        | Option.none => row.getD 3 "" ]

/-- `transformAnalyticsRows(rows)`. -/
def transformAnalyticsRows (rows : List (List String)) : List (List String) :=
  rows.map transformRow

/-! ## Data-processing service (`src/unnamed/part_001`) -/

/-- Result record of `processPolicyValue`. -/
structure PolicyValueResult where
  displayText : String
  implemented : Bool
deriving DecidableEq

/-- `processPolicyValue(rawValue)` from `src/unnamed/part_001`. -/
def processPolicyValue (rawValue : String) : PolicyValueResult :=
  if rawValue = "Y" then { displayText := "Yes*", implemented := true }
  else if rawValue = "Y1" then { displayText := "Yes", implemented := true }
  else if rawValue = "N" then { displayText := "No", implemented := false }
  else { displayText := "-", implemented := false }

/-- The policy Yes/No identifiers (`policyYesNoElements`). -/
def policyYesNoElements : List String :=
  [ "Vm1oCupLZsS", "gagBPnUGmaY"
  , "JKP3ANVLyjN", "H9P0BVxKBYM", "VBkox9y1nbh", "geSDyXkZNU1", "Q260gqIU0A1"
  , "apgTbakUcGw", "myQQJ1wGzIs", "rSxvwUOJEQN", "lLdqBPGWhu1", "DyINPGgopL3"
  , "MrVSpLKqDsp", "anvAOV5ht6p", "LFuetZdwR81", "DP8ImP6qAK2", "uVy7wsFKUKj"
  , "AXnVeNe9yF9", "gzyORQNEpkZ", "KmPLPFZJpHU", "XHwHMqT5nmK" ]

/-- The treatment medicine identifiers (`treatmentMedicineElements`). -/
def treatmentMedicineElements : List String :=
  [ "KSqJwXVSfbD", "gz7J7ikcJ1e", "e6JiciQzwuh"
  , "zW6EYvOjMIo", "lOvt1oXLdBr", "aLWOXICfAbR" ]

/-- The anopheles species identifiers (`anophelesElements`). -/
def anophelesElements : List String :=
  [ "EZiGVGfTyLe", "IxSMxz5GT9U", "e76O7EJtWGk", "KT39UBQaP1w", "uu7tSgybizF", "sQmvMbqADAw" ]

/-- The text-valued resistance identifiers (`resistanceTextElements`). -/
def resistanceTextElements : List String :=
  [ "JRiVdTENIoc", "e0EfJGiSb79", "YqvLJLueLT1", "OXa48KUAIpl", "jGFk8LVWdyS"
  , "MnqhjD2JGWb", "GI8boxUVl0X", "hJ3v9S8AK5S", "jDFQP0JQamH", "catAlhTNBdV"
  , "b4mMqIHFcIV", "dQ8Zy175oQc" ]

/-- The resistance sites identifiers, kept textual (`sitesElements`). -/
def sitesElements : List String :=
  [ "UKNTRFYcgr6", "FYGTLutUdIA", "Putx3c0luqG", "id9O30pMkaD" ]

/-- The therapeutic-efficacy year identifiers, kept textual to preserve year
ranges such as "2016-2020" (`therapeuticYearUIDs`). -/
def therapeuticYearUIDs : List String :=
  [ "l7q5DJ4yQMP", "NSNQbWC8PiS", "rrKtSwyOGd9", "C1WcroDjXOI" ]

/-- The Value Classifier: the condition guarding `textDataMap.set` in the row
loop of `processCountryData` (`src/unnamed/part_001`, lines 304–326). -/
def isTextElement (dataElement : String) : Bool :=
  policyYesNoElements.contains dataElement
    || treatmentMedicineElements.contains dataElement
    || anophelesElements.contains dataElement
    || resistanceTextElements.contains dataElement
    || sitesElements.contains dataElement
    || therapeuticYearUIDs.contains dataElement
    || dataElement = "UIwEygmwj1J" || dataElement = "IBovXuvqLqM"
    || dataElement = "lmkabfeVd1U" || dataElement = "YNRlSV0dMPf"
    || dataElement = "LpmvOoiEVf0"
    || dataElement = "rRs7tyHlgRc" || dataElement = "MCb8TWRSlb0"
    || dataElement = "LRksI6Vhz98" || dataElement = "NrMNyIUB7RQ"
    || dataElement = "TzuDFOcom3h" || dataElement = "WdskU0t2N1i"
    || dataElement = "kp667EGomur" || dataElement = "aQdJEFAqmg2"
    || dataElement = "ejBlfRCpZAB"

/-- The pair of maps built by the Aggregation Merge Step (`dataMap` and
`textDataMap`). -/
structure ValueMaps where
  numeric : List (String × JSNum)
  text : List (String × String)
deriving DecidableEq

/-- The empty maps created at the start of `processCountryData`. -/
def emptyValueMaps : ValueMaps := { numeric := [], text := [] }

/-- The body of the row loop of `processCountryData`: route one analytics row
`(row[0] = identifier, …, row[3] = rawValue)` into the text map verbatim or
into the numeric map through `parseFloat(rawValue) || 0`. -/
def mergeRow (maps : ValueMaps) (row : List String) : ValueMaps :=
  let dataElement := row.getD 0 ""
  let rawValue := row.getD 3 ""
  if isTextElement dataElement then
    { maps with text := assocSet maps.text dataElement rawValue }
  else
    { maps with numeric := assocSet maps.numeric dataElement (jsParseFloatOr0 rawValue) }

/-- Folding every returned row, across every response group in declaration
order, into the two maps. -/
def mergeRows (maps : ValueMaps) (rows : List (List String)) : ValueMaps :=
  rows.foldl mergeRow maps

/-- A policy catalog entry (`interface PolicyDefinition`).  Year bounds and
display order are modelled as integers; every value in the static catalog is
a small positive integer. -/
structure PolicyDefinition where
  intervention : String
  strategy : String
  policyUID : String
  yearUID : String
  validFromYear : Option Int := Option.none
  validUntilYear : Option Int := Option.none
  displayOrder : Option Int := Option.none
deriving DecidableEq

/-- The static policy catalog `policyData` of `processCountryData`
(`src/unnamed/part_001`, lines 441–497). -/
def policyData : List PolicyDefinition :=
  [ { intervention := "Diagnosis", strategy := "Malaria diagnosis with either microscopy or RDTs are free in the public sector", policyUID := "lLdqBPGWhu1", yearUID := "NJZIDMAfHWt", displayOrder := some 1 }
  , { intervention := "Diagnosis", strategy := "Malaria diagnosis using RDT is free of charge in the public sector", policyUID := "YsUd6nF0ueJ", yearUID := "wUHmvm2OjXj", validUntilYear := some 2023, displayOrder := some 2 }
  , { intervention := "Diagnosis", strategy := "Malaria diagnosis using microscopy is free of charge in the public sector", policyUID := "lzOLWfgxqWs", yearUID := "b6gs2kxe1Uw", validUntilYear := some 2023, displayOrder := some 3 }
  , { intervention := "Diagnosis", strategy := "Malaria diagnosis is free of charge in the private sector", policyUID := "UoeX8OFbDqx", yearUID := "NfLyg6NTGae", validUntilYear := some 2023, displayOrder := some 4 }
  , { intervention := "Treatment", strategy := "ACTs for malaria treatment is free in the public sector", policyUID := "DyINPGgopL3", yearUID := "UKsKOT9K9SQ", displayOrder := some 10 }
  , { intervention := "Treatment", strategy := "Primaquine is used for radical treatment of P. vivax", policyUID := "ugIeZT18C10", yearUID := "AL004HeA4Tj", validUntilYear := some 2023, displayOrder := some 12 }
  , { intervention := "Treatment", strategy := "G6PD test is a requirement before treatment with primaquine", policyUID := "NYYgVn2hLl6", yearUID := "uVNMyFdMcHT", validUntilYear := some 2023, displayOrder := some 13 }
  , { intervention := "Treatment", strategy := "Directly observed treatment with primaquine is undertaken", policyUID := "E7xOl37PtKW", yearUID := "fZnwco6AY75", validUntilYear := some 2023, displayOrder := some 14 }
  , { intervention := "Treatment", strategy := "System for monitoring of adverse reaction to antimalarials exists", policyUID := "TmkBWN7YSsS", yearUID := "uRsupJISCmR", validUntilYear := some 2023, displayOrder := some 15 }
  , { intervention := "Treatment", strategy := "ACT is delivered at community", policyUID := "AXnVeNe9yF9", yearUID := "sWXSI2KOQiQ", displayOrder := some 11 }
  , { intervention := "Treatment", strategy := "Pre-referral Rx with rectal artesunate suppositories at community level", policyUID := "gzyORQNEpkZ", yearUID := "HhSG5KOszRE", displayOrder := some 16 }
  , { intervention := "Treatment", strategy := "Single dose of primaquine is used as gametocidal medicine for P. falciparum", policyUID := "KmPLPFZJpHU", yearUID := "SEzJzC07clE", displayOrder := some 17 }
  , { intervention := "Treatment", strategy := "The sale of oral artemisinin- based monotherapy drugs", policyUID := "MrVSpLKqDsp", yearUID := "K822hl8P5cJ", displayOrder := some 18 }
  , { intervention := "IPT", strategy := "IPT used to prevent malaria during pregnancy", policyUID := "geSDyXkZNU1", yearUID := "n1L03jjC8ej", displayOrder := some 20 }
  , { intervention := "IPT", strategy := "Community based delivery of IPTp (c-IPTp) is used to prevent malaria during pregnancy aligned with WHO recommendation", policyUID := "Q260gqIU0A1", yearUID := "E6hsEdJtWim", validFromYear := some 2024, displayOrder := some 21 }
  , { intervention := "IPT", strategy := "Seasonal malaria chemoprevention (SMC) is used, aligned with WHO recommendation", policyUID := "apgTbakUcGw", yearUID := "kVxe33FsZSS", validFromYear := some 2024, displayOrder := some 22 }
  , { intervention := "IPT", strategy := "Perennial Malaria Chemoprevention (PMC) is used, aligned with WHO recommendation", policyUID := "myQQJ1wGzIs", yearUID := "NAHlVK5KLSo", validFromYear := some 2024, displayOrder := some 23 }
  , { intervention := "IPT", strategy := "Intermittent Preventive Treatment in school-aged children (IPTsc) is used, aligned with WHO recommendation", policyUID := "rSxvwUOJEQN", yearUID := "sRQbAHXFZqi", validFromYear := some 2024, displayOrder := some 24 }
  , { intervention := "Surveillance", strategy := "Malaria is a notifiable disease", policyUID := "anvAOV5ht6p", yearUID := "TtbfDs5cXt3", displayOrder := some 30 }
  , { intervention := "Surveillance", strategy := "Case investigation and classification is undertaken", policyUID := "LFuetZdwR81", yearUID := "bsgecIQFQvp", displayOrder := some 31 }
  , { intervention := "Surveillance", strategy := "Foci investigation and classification is undertaken", policyUID := "DP8ImP6qAK2", yearUID := "BSYYdY5DPw4", displayOrder := some 32 }
  , { intervention := "Surveillance", strategy := "ACD for case investigation (reactive)", policyUID := "xlnxh4R7Gwt", yearUID := "QcqpJldcsHj", validUntilYear := some 2023, displayOrder := some 33 }
  , { intervention := "Surveillance", strategy := "ACD at community level of febrile cases (pro-active)", policyUID := "iTbPoUugAiA", yearUID := "Bo0riNVa5V7", validUntilYear := some 2023, displayOrder := some 34 }
  , { intervention := "Surveillance", strategy := "Mass screening is undertaken", policyUID := "MSf8VHWAkLj", yearUID := "pYzj15BVyl8", validUntilYear := some 2023, displayOrder := some 35 }
  , { intervention := "Surveillance", strategy := "Uncomplicated P. falciparum cases routinely admitted", policyUID := "usY6jfPj7jb", yearUID := "Q3BxJwzOjn8", validUntilYear := some 2023, displayOrder := some 36 }
  , { intervention := "Surveillance", strategy := "Uncomplicated P. vivax cases routinely admitted", policyUID := "tNePhPWXIce", yearUID := "fqTk6BHqgzk", validUntilYear := some 2023, displayOrder := some 37 }
  , { intervention := "Surveillance", strategy := "Case reporting from private sector is mandatory", policyUID := "uVy7wsFKUKj", yearUID := "OJaWx05JgII", displayOrder := some 38 }
  , { intervention := "ITN", strategy := "ITNs distributed free of charge through through mass campaign to all age groups", policyUID := "gagBPnUGmaY", yearUID := "vrqd6AO3eO0", displayOrder := some 41 }
  , { intervention := "ITN", strategy := "ITNs distributed free of charge through routine channels to all age groups", policyUID := "Vm1oCupLZsS", yearUID := "HzrPyUbuI3d", displayOrder := some 42 }
  , { intervention := "ITN", strategy := "ITNs durability is monitored", policyUID := "XHwHMqT5nmK", yearUID := "vHp4LHvdhGt", displayOrder := some 43 }
  , { intervention := "IRS", strategy := "IRS is an intervention at the NMP", policyUID := "JKP3ANVLyjN", yearUID := "tbntOU0xvJo", displayOrder := some 51 }
  , { intervention := "IRS", strategy := "DDT is used for IRS", policyUID := "H9P0BVxKBYM", yearUID := "VDihj2VLq4A", displayOrder := some 52 }
  , { intervention := "Larval source management ", strategy := "Use of Larval source management", policyUID := "VBkox9y1nbh", yearUID := "htRtowcXu3u", displayOrder := some 60 }
  ]

/-- The filter predicate of `filteredPolicyData`, including the JavaScript
truthiness of `policy.validUntilYear &&` / `policy.validFromYear &&` (an
absent bound, and a bound equal to `0`, disable the corresponding check). -/
def keepPolicy (policy : PolicyDefinition) (currentYear : Int) : Bool :=
  if (match policy.validUntilYear with
      | some u => decide (u ≠ 0) && decide (currentYear > u)
      | Option.none => false) then false
  else if (match policy.validFromYear with
      | some f => decide (f ≠ 0) && decide (currentYear < f)
      | Option.none => false) then false
  else true

/-- `policyData.filter(...)` for a reporting year (the source computes the
year as `parseInt(period)`; the parsed year is the integer parameter here). -/
def filterPolicies (catalog : List PolicyDefinition) (currentYear : Int) : List PolicyDefinition :=
  catalog.filter (fun p => keepPolicy p currentYear)

/-- The sort key `displayOrder ?? 999999` of the comparator in
`sortedPolicyData`. -/
def orderKey (p : PolicyDefinition) : Int :=
  p.displayOrder.getD 999999

/-- The stable ascending sort performed by
`filteredPolicyData.sort((a, b) => (a.displayOrder ?? 999999) - (b.displayOrder ?? 999999))`;
JavaScript `Array.prototype.sort` is a stable sort, modelled by `mergeSort`. -/
def sortPolicies (l : List PolicyDefinition) : List PolicyDefinition :=
  l.mergeSort (fun a b => decide (orderKey a ≤ orderKey b))

/-- An interpreted policy row (`PolicyData` of `types/dhis2`). -/
structure PolicyRow where
  intervention : String
  strategy : String
  policy : String
  implemented : Bool
  yearAdopted : Option JSNum
deriving DecidableEq

/-- JavaScript `maybeNumber || null`: absent and zero both become null. -/
def jsNumOrNull (o : Option JSNum) : Option JSNum :=
  match o with
  | some v => if v = .fin 0 then Option.none else some v
  | Option.none => Option.none

/-- The body of `sortedPolicyData.map((item) => ...)`: look up the raw policy
value (`textDataMap.get(..) || 'N'`) and the adoption year
(`dataMap.get(..) || null`), take the dedicated free-text branch for the
`MrVSpLKqDsp` definition, and otherwise apply `processPolicyValue`.  The
source also contains a branch for the UIDs `kfqivXVpG02` / `wgwQAH2zsxI`
whose record is identical to the general one; the two collapse here. -/
def interpretPolicy (textMap : List (String × String)) (numMap : List (String × JSNum))
    (item : PolicyDefinition) : PolicyRow :=
  let rawPolicyValue := jsStringOr (assocLookup textMap item.policyUID) "N"
  let yearValue := jsNumOrNull (assocLookup numMap item.yearUID)
  -- `yearValue ? Number(yearValue) : null` is the identity on `yearValue`
  let yearAdopted := yearValue
  if item.policyUID = "MrVSpLKqDsp" then
    let normalizedValue := jsTrim rawPolicyValue
    if normalizedValue = "has never been allowed" || normalizedValue = "is banned" then
      { intervention := item.intervention, strategy := item.strategy
      , policy := normalizedValue, implemented := true, yearAdopted := yearAdopted }
    else
      { intervention := item.intervention, strategy := item.strategy
      , policy := if rawPolicyValue = "" then "-" else rawPolicyValue  -- `rawPolicyValue || '-'`
      , implemented := false, yearAdopted := yearAdopted }
  else
    let policyResult := processPolicyValue rawPolicyValue
    { intervention := item.intervention, strategy := item.strategy
    , policy := policyResult.displayText, implemented := policyResult.implemented
    , yearAdopted := yearAdopted }

/-- The full Policy Resolver: filter the static catalog by the reporting
year, sort by display order, interpret every surviving definition. -/
def resolvePolicies (textMap : List (String × String)) (numMap : List (String × JSNum))
    (currentYear : Int) : List PolicyRow :=
  (sortPolicies (filterPolicies policyData currentYear)).map (interpretPolicy textMap numMap)

/-! ## Country classification flags (`src/src/config/dhis2DataElements.ts`
and `src/unnamed/part_001`) -/

/-- `E2025_COUNTRIES` from the configuration module. -/
def E2025_COUNTRIES : List String :=
  [ "BLZ", "BTN", "BWA", "CPV", "COM", "CRI", "PRK", "DOM", "ECU", "SWZ", "GUF"
  , "GTM", "HND", "IRN", "MYS", "MEX", "NPL", "PAN", "KOR", "STP", "SAU", "ZAF"
  , "SUR", "THA", "TLS", "VUT" ]

/-- `isE2025Country(countryCode)`. -/
def isE2025Country (countryCode : String) : Bool :=
  E2025_COUNTRIES.contains countryCode

/-- `estIndigCountriesArray` in `processCountryData`. -/
def estIndigCountriesArray : List String := ["COM", "SWZ", "THA"]

/-- `showEstForIndigCountry` in `processCountryData`. -/
def showEstForIndigCountry (countryCode : String) : Bool :=
  estIndigCountriesArray.contains countryCode

/-- `E2025ShowEstimatesArray` in `processCountryData`. -/
def E2025ShowEstimatesArray : List String := ["NPL"]

/-- `E2025ShowEst` in `processCountryData`. -/
def E2025ShowEst (countryCode : String) : Bool :=
  E2025ShowEstimatesArray.contains countryCode

/-- `showEstimates = !isE2025 || E2025ShowEst`. -/
def showEstimates (countryCode : String) : Bool :=
  !isE2025Country countryCode || E2025ShowEst countryCode

/-- The scope-metadata record consumed by the country-code lookup
(`dhis2Service.getOrganisationUnit`); only its `code` field is read. -/
structure OrganisationUnitData where
  code : Option String
deriving DecidableEq

/-- The country-code derivation of `processCountryData`: on success
`orgUnitData.code || ''`, on failure the `catch` leaves the initial `''`. -/
def countryCodeOf (lookup : Except String OrganisationUnitData) : String :=
  match lookup with
  | .ok orgUnitData => jsStringOr orgUnitData.code ""
  | .error _ => ""

/-! ## Option-set lookup cache (`src/unnamed/part_001`, `getOptionSetValue`) -/

/-- One option of an option set. -/
structure OptionSetOption where
  code : String
  displayName : String
deriving DecidableEq

/-- An option set returned by `dhis2Service.getOptionSet`. -/
structure OptionSet where
  options : List OptionSetOption
deriving DecidableEq

/-- The `optionSetCache` instance field: a map from option-set id to the
fetched option set. -/
abbrev OptionSetCache := List (String × OptionSet)

/-- The cache state of the freshly constructed singleton service
(`new Map()` in the field initializer, executed once at module load). -/
def initialOptionSetCache : OptionSetCache := []

/-- `optionSet.options.find(opt => opt.code === code)` followed by
`option ? option.displayName : '-'`. -/
def findOptionName (optionSet : OptionSet) (code : String) : String :=
  match optionSet.options.find? (fun opt => opt.code = code) with
  | some opt => opt.displayName
  | Option.none => "-"

/-- `getOptionSetValue(optionSetId, code)` with the cache state passed and
returned explicitly: fetch only on a cache miss, store the fetched set in
the cache, and degrade to `"-"` (leaving the cache unchanged) when the
fetch fails. -/
def getOptionSetValue (fetch : String → Except String OptionSet)
    (cache : OptionSetCache) (optionSetId code : String) : String × OptionSetCache :=
  match assocLookup cache optionSetId with
  | some optionSet => (findOptionName optionSet code, cache)
  | Option.none =>
    match fetch optionSetId with
    | .ok optionSet =>
      (findOptionName optionSet code, assocSet cache optionSetId optionSet)
    | .error _ => ("-", cache)

/-! ## Helper lemmas -/

/-- A null accumulator is absorbing for the spec-side fold. -/
theorem foldl_specFoldStep_none (rs : List TransformationRule) :
    rs.foldl specFoldStep Option.none = Option.none := by
  induction rs with
  | nil => rfl
  | cons r rs ih => simpa [specFoldStep] using ih

/-- The rule loop of the source equals the spec-side left fold. -/
theorem runRules_eq_foldl (rs : List TransformationRule) (v : JSNum) :
    runRules rs v = rs.foldl specFoldStep (some v) := by
  induction rs generalizing v with
  | nil => rfl
  | cons r rs ih =>
    show (match applyRule v r with
          | Option.none => Option.none
          | some v' => runRules rs v') = rs.foldl specFoldStep (specFoldStep (some v) r)
    have hstep : specFoldStep (some v) r = applyRule v r := by
      cases r <;> rfl
    rw [hstep]
    cases happ : applyRule v r with
    | none => rw [foldl_specFoldStep_none]
    | some v' => exact ih v'

/-- Reading back the binding just written by `Map.set`. -/
theorem assocLookup_assocSet_self (m : List (String × α)) (k : String) (v : α) :
    assocLookup (assocSet m k v) k = some v := by
  simp [assocLookup, assocSet, List.find?]

/-- `textDataMap.get(uid) || 'N'` never produces the empty string. -/
theorem jsStringOr_N_ne_empty (o : Option String) : jsStringOr o "N" ≠ "" := by
  cases o with
  | none => simp [jsStringOr]
  | some v =>
    by_cases h : v = "" <;> simp [jsStringOr, h]

/-! ## Claim theorems -/

/-- C7: for every identifier and every input, the Transformation Engine's
`transformValue` equals the left-to-right fold of the identifier's
registered rule list (default `['none']` for unregistered identifiers) with
the stated rule semantics, halting as soon as the value becomes null; null
input returns null unchanged; and input `0` under the rules
`[multiplyBy100, nullZeros, cut100]` (registered for `niYxtlxx68s`) yields
null, never `0` or `100`. -/
theorem transformValue_spec :
    (∀ (dataElementUID : String) (value : Option JSNum),
        transformValue value dataElementUID = specApply dataElementUID value)
    ∧ (∀ dataElementUID : String, transformValue Option.none dataElementUID = Option.none)
    ∧ getRules "niYxtlxx68s" = [.multiplyBy100, .nullZeros, .cut100]
    ∧ transformValue (some (JSNum.fin 0)) "niYxtlxx68s" = Option.none
    ∧ (Option.none : Option JSNum) ≠ some (JSNum.fin 0)
    ∧ (Option.none : Option JSNum) ≠ some (JSNum.fin 100) := by
  refine ⟨?_, ?_, by decide, ?_, by decide, by decide⟩
  · intro uid value
    cases value with
    | none => rw [transformValue]; exact (foldl_specFoldStep_none _).symm
    | some v => exact runRules_eq_foldl _ v
  · intro uid
    rfl
  · simp [transformValue, getRules, assocLookup, transformationRules, List.find?,
      runRules, applyRule, jsMul100]

/-- C1 counterexample: the claim defaults the looked-up value to `"N"` only
when it is absent, so for a stored empty-string raw value it predicts the
label `"-"`; the resolver, whose `|| 'N'` default also fires on the empty
string, produces `"No"` instead.  The definition used is the
`DyINPGgopL3` catalog entry, which is not the oral-monotherapy override. -/
theorem interpretPolicy_empty_string_counterexample :
    ({ intervention := "Treatment", strategy := "ACTs for malaria treatment is free in the public sector"
     , policyUID := "DyINPGgopL3", yearUID := "UKsKOT9K9SQ", displayOrder := some 10 }
        : PolicyDefinition) ∈ policyData
    ∧ ("DyINPGgopL3" : String) ≠ "MrVSpLKqDsp"
    ∧ assocLookup [("DyINPGgopL3", "")] "DyINPGgopL3" = some ""
    ∧ (interpretPolicy [("DyINPGgopL3", "")] []
        { intervention := "Treatment", strategy := "ACTs for malaria treatment is free in the public sector"
        , policyUID := "DyINPGgopL3", yearUID := "UKsKOT9K9SQ", displayOrder := some 10 }).policy = "No"
    ∧ ("No" : String) ≠ "-" := by
  refine ⟨by decide, by decide, by decide, by decide, by decide⟩

/-- C1 (amended): for every policy definition other than the
oral-monotherapy-sale override, the raw text value looked up under the
definition's yes/no identifier — defaulting to `"N"` when absent **or
empty** — is mapped as `"Y" ↦ ("Yes*", implemented)`,
`"Y1" ↦ ("Yes", implemented)`, `"N" ↦ ("No", not implemented)`, and any
other value to `("-", not implemented)`. -/
theorem interpretPolicy_standard_mapping (textMap : List (String × String))
    (numMap : List (String × JSNum)) (item : PolicyDefinition)
    (huid : item.policyUID ≠ "MrVSpLKqDsp") :
    (jsStringOr (assocLookup textMap item.policyUID) "N" = "Y" →
      (interpretPolicy textMap numMap item).policy = "Yes*"
      ∧ (interpretPolicy textMap numMap item).implemented = true)
    ∧ (jsStringOr (assocLookup textMap item.policyUID) "N" = "Y1" →
      (interpretPolicy textMap numMap item).policy = "Yes"
      ∧ (interpretPolicy textMap numMap item).implemented = true)
    ∧ (jsStringOr (assocLookup textMap item.policyUID) "N" = "N" →
      (interpretPolicy textMap numMap item).policy = "No"
      ∧ (interpretPolicy textMap numMap item).implemented = false)
    ∧ (jsStringOr (assocLookup textMap item.policyUID) "N" ≠ "Y" →
      jsStringOr (assocLookup textMap item.policyUID) "N" ≠ "Y1" →
      jsStringOr (assocLookup textMap item.policyUID) "N" ≠ "N" →
      (interpretPolicy textMap numMap item).policy = "-"
      ∧ (interpretPolicy textMap numMap item).implemented = false) := by
  have hres : interpretPolicy textMap numMap item =
      { intervention := item.intervention, strategy := item.strategy
      , policy := (processPolicyValue (jsStringOr (assocLookup textMap item.policyUID) "N")).displayText
      , implemented := (processPolicyValue (jsStringOr (assocLookup textMap item.policyUID) "N")).implemented
      , yearAdopted := jsNumOrNull (assocLookup numMap item.yearUID) } := by
    rw [interpretPolicy, if_neg huid]
  refine ⟨?_, ?_, ?_, ?_⟩
  · intro h
    rw [hres]
    simp [processPolicyValue, h]
  · intro h
    rw [hres]
    simp [processPolicyValue, h]
  · intro h
    rw [hres]
    simp [processPolicyValue, h]
  · intro h1 h2 h3
    rw [hres]
    simp [processPolicyValue, h1, h2, h3]

/-- C1 witness: the standard mapping applied to the `lLdqBPGWhu1` definition
with stored raw value `"Y1"`. -/
theorem interpretPolicy_standard_mapping_witness :
    (interpretPolicy [("lLdqBPGWhu1", "Y1")] []
      { intervention := "Diagnosis"
      , strategy := "Malaria diagnosis with either microscopy or RDTs are free in the public sector"
      , policyUID := "lLdqBPGWhu1", yearUID := "NJZIDMAfHWt", displayOrder := some 1 }).policy = "Yes"
    ∧ (interpretPolicy [("lLdqBPGWhu1", "Y1")] []
      { intervention := "Diagnosis"
      , strategy := "Malaria diagnosis with either microscopy or RDTs are free in the public sector"
      , policyUID := "lLdqBPGWhu1", yearUID := "NJZIDMAfHWt", displayOrder := some 1 }).implemented = true :=
  (interpretPolicy_standard_mapping [("lLdqBPGWhu1", "Y1")] []
    { intervention := "Diagnosis"
    , strategy := "Malaria diagnosis with either microscopy or RDTs are free in the public sector"
    , policyUID := "lLdqBPGWhu1", yearUID := "NJZIDMAfHWt", displayOrder := some 1 }
    (by decide)).2.1 (by decide)

/-- C3: for the oral-monotherapy-sale definition (`MrVSpLKqDsp`), the
interpretation diverges from the standard mapping: when the trimmed raw
value equals `"has never been allowed"` or `"is banned"` exactly, the label
is that trimmed text with `implemented = true`; for any other raw value the
value is shown verbatim with `implemented = false` (the raw value the
branch receives is the looked-up text defaulted to `"N"`, hence nonempty,
so the `|| '-'` fallback never alters it). -/
theorem interpretPolicy_monotherapy (textMap : List (String × String))
    (numMap : List (String × JSNum)) (item : PolicyDefinition)
    (huid : item.policyUID = "MrVSpLKqDsp") :
    ((jsTrim (jsStringOr (assocLookup textMap item.policyUID) "N") = "has never been allowed"
      ∨ jsTrim (jsStringOr (assocLookup textMap item.policyUID) "N") = "is banned") →
      (interpretPolicy textMap numMap item).policy
        = jsTrim (jsStringOr (assocLookup textMap item.policyUID) "N")
      ∧ (interpretPolicy textMap numMap item).implemented = true)
    ∧ (jsTrim (jsStringOr (assocLookup textMap item.policyUID) "N") ≠ "has never been allowed" →
      jsTrim (jsStringOr (assocLookup textMap item.policyUID) "N") ≠ "is banned" →
      (interpretPolicy textMap numMap item).policy
        = jsStringOr (assocLookup textMap item.policyUID) "N"
      ∧ (interpretPolicy textMap numMap item).implemented = false) := by
  constructor
  · intro h
    rw [huid] at h
    rw [interpretPolicy, if_pos huid, huid]
    rcases h with h | h <;> simp [h]
  · intro h1 h2
    rw [huid] at h1 h2
    rw [interpretPolicy, if_pos huid, huid]
    have hne := jsStringOr_N_ne_empty (assocLookup textMap "MrVSpLKqDsp")
    simp [h1, h2, hne]

/-- C3 witness: the monotherapy branch applied to the catalog's
`MrVSpLKqDsp` definition, once with a raw value that trims to
`"is banned"` and once with the raw value `"sometimes"`. -/
theorem interpretPolicy_monotherapy_witness :
    ((interpretPolicy [("MrVSpLKqDsp", " is banned ")] []
      { intervention := "Treatment", strategy := "The sale of oral artemisinin- based monotherapy drugs"
      , policyUID := "MrVSpLKqDsp", yearUID := "K822hl8P5cJ", displayOrder := some 18 }).policy
        = jsTrim (jsStringOr (assocLookup [("MrVSpLKqDsp", " is banned ")] "MrVSpLKqDsp") "N")
    ∧ (interpretPolicy [("MrVSpLKqDsp", " is banned ")] []
      { intervention := "Treatment", strategy := "The sale of oral artemisinin- based monotherapy drugs"
      , policyUID := "MrVSpLKqDsp", yearUID := "K822hl8P5cJ", displayOrder := some 18 }).implemented = true)
    ∧ ((interpretPolicy [("MrVSpLKqDsp", "sometimes")] []
      { intervention := "Treatment", strategy := "The sale of oral artemisinin- based monotherapy drugs"
      , policyUID := "MrVSpLKqDsp", yearUID := "K822hl8P5cJ", displayOrder := some 18 }).policy
        = jsStringOr (assocLookup [("MrVSpLKqDsp", "sometimes")] "MrVSpLKqDsp") "N"
    ∧ (interpretPolicy [("MrVSpLKqDsp", "sometimes")] []
      { intervention := "Treatment", strategy := "The sale of oral artemisinin- based monotherapy drugs"
      , policyUID := "MrVSpLKqDsp", yearUID := "K822hl8P5cJ", displayOrder := some 18 }).implemented = false) :=
  ⟨(interpretPolicy_monotherapy [("MrVSpLKqDsp", " is banned ")] []
      { intervention := "Treatment", strategy := "The sale of oral artemisinin- based monotherapy drugs"
      , policyUID := "MrVSpLKqDsp", yearUID := "K822hl8P5cJ", displayOrder := some 18 }
      (by decide)).1 (Or.inr (by decide))
  , (interpretPolicy_monotherapy [("MrVSpLKqDsp", "sometimes")] []
      { intervention := "Treatment", strategy := "The sale of oral artemisinin- based monotherapy drugs"
      , policyUID := "MrVSpLKqDsp", yearUID := "K822hl8P5cJ", displayOrder := some 18 }
      (by decide)).2 (by decide) (by decide)⟩

/-- C2 counterexample: `ZoMFYowPAkO` is classified Numeric and registered
with the rules `[multiplyBy100, nullZeros]`, so for the row value `"0"` the
claim predicts that the transformation result — null — is stored in the
numeric map; the merge step stores the untransformed parsed value `0`
instead (the Transformation Engine is never invoked during the merge). -/
theorem merge_numeric_transform_counterexample :
    isTextElement "ZoMFYowPAkO" = false
    ∧ assocLookup (mergeRows emptyValueMaps [["ZoMFYowPAkO", "ou", "2024", "0"]]).numeric
        "ZoMFYowPAkO" = some (JSNum.fin 0)
    ∧ transformValue (some (JSNum.fin 0)) "ZoMFYowPAkO" = Option.none
    ∧ some (JSNum.fin 0) ≠ (Option.none : Option JSNum) := by
  refine ⟨by decide, by decide, ?_, by decide⟩
  simp [transformValue, getRules, assocLookup, transformationRules, List.find?,
    runRules, applyRule, jsMul100]

/-- C2 (amended): for every returned row whose identifier is classified
Numeric, the raw string value is parsed as a floating-point number with
unparsable or empty strings treated as `0`, and that parsed value is stored
in the numeric map directly; the Transformation Engine is not applied by
the merge step (it is applied later, by the chart components), and the
numeric map never holds null. -/
theorem merge_numeric_stores_parsed (maps : ValueMaps) (row : List String)
    (h : isTextElement (row.getD 0 "") = false) :
    assocLookup (mergeRow maps row).numeric (row.getD 0 "")
      = some (jsParseFloatOr0 (row.getD 3 ""))
    ∧ (mergeRow maps row).text = maps.text := by
  rw [mergeRow]
  rw [if_neg (by simpa using h)]
  exact ⟨assocLookup_assocSet_self _ _ _, rfl⟩

/-- C2 witness: the amended storage rule applied to the `ZoMFYowPAkO` row
with raw value `"0"`. -/
theorem merge_numeric_stores_parsed_witness :
    assocLookup (mergeRow emptyValueMaps ["ZoMFYowPAkO", "ou", "2024", "0"]).numeric
      (["ZoMFYowPAkO", "ou", "2024", "0"].getD 0 "")
      = some (jsParseFloatOr0 (["ZoMFYowPAkO", "ou", "2024", "0"].getD 3 ""))
    ∧ (mergeRow emptyValueMaps ["ZoMFYowPAkO", "ou", "2024", "0"]).text = emptyValueMaps.text :=
  merge_numeric_stores_parsed emptyValueMaps ["ZoMFYowPAkO", "ou", "2024", "0"] (by decide)

/-- C4: for every returned row whose identifier is classified Text, the
merge step stores the raw string value verbatim in the text map and leaves
the numeric map untouched (no numeric parsing is applied); in particular
the therapeutic-efficacy year identifiers are classified Text, and the
multi-token year-range string `"2016-2020"` round-trips exactly. -/
theorem merge_text_roundtrip :
    (∀ (maps : ValueMaps) (row : List String), isTextElement (row.getD 0 "") = true →
      assocLookup (mergeRow maps row).text (row.getD 0 "") = some (row.getD 3 "")
      ∧ (mergeRow maps row).numeric = maps.numeric)
    ∧ therapeuticYearUIDs.all isTextElement = true
    ∧ assocLookup (mergeRows emptyValueMaps [["l7q5DJ4yQMP", "ou", "2024", "2016-2020"]]).text
        "l7q5DJ4yQMP" = some "2016-2020" := by
  refine ⟨?_, by decide, by decide⟩
  intro maps row h
  rw [mergeRow]
  rw [if_pos (by simpa using h)]
  exact ⟨assocLookup_assocSet_self _ _ _, rfl⟩

/-- C4 witness: the verbatim round-trip applied to a therapeutic-efficacy
year row carrying the year range `"2016-2020"`. -/
theorem merge_text_roundtrip_witness :
    assocLookup (mergeRow emptyValueMaps ["l7q5DJ4yQMP", "ou", "2024", "2016-2020"]).text
      (["l7q5DJ4yQMP", "ou", "2024", "2016-2020"].getD 0 "")
      = some (["l7q5DJ4yQMP", "ou", "2024", "2016-2020"].getD 3 "")
    ∧ (mergeRow emptyValueMaps ["l7q5DJ4yQMP", "ou", "2024", "2016-2020"]).numeric
      = emptyValueMaps.numeric :=
  merge_text_roundtrip.1 emptyValueMaps ["l7q5DJ4yQMP", "ou", "2024", "2016-2020"] (by decide)

/-- Spec-side definition for the refinement comparison: the claim's validity
window — the reporting year is at least `validFromYear` (when present) and
at most `validUntilYear` (when present), both bounds inclusive, absent
bounds unbounded. -/
def windowSpec (p : PolicyDefinition) (y : Int) : Bool :=
  (match p.validFromYear with
   | some f => decide (f ≤ y)
   | Option.none => true)
  && (match p.validUntilYear with
      | some u => decide (y ≤ u)
      | Option.none => true)

/-- For a definition whose optional bounds are nonzero, the source's filter
predicate (with its JavaScript truthiness on the bounds) agrees with the
claim's inclusive window. -/
theorem keepPolicy_eq_windowSpec_of_nonzero (p : PolicyDefinition)
    (hf : ∀ f, p.validFromYear = some f → f ≠ 0)
    (hu : ∀ u, p.validUntilYear = some u → u ≠ 0) (y : Int) :
    keepPolicy p y = windowSpec p y := by
  rcases hF : p.validFromYear with _ | f <;> rcases hU : p.validUntilYear with _ | u
  · simp [keepPolicy, windowSpec, hF, hU]
  · have hu' := hu u hU
    simp only [keepPolicy, windowSpec, hF, hU]
    by_cases h1 : y > u
    all_goals simp [h1, hu']
    all_goals omega
  · have hf' := hf f hF
    simp only [keepPolicy, windowSpec, hF, hU]
    by_cases h2 : y < f
    all_goals simp [h2, hf']
    all_goals omega
  · have hf' := hf f hF
    have hu' := hu u hU
    simp only [keepPolicy, windowSpec, hF, hU]
    by_cases h1 : y > u
    all_goals by_cases h2 : y < f
    all_goals simp [h1, h2, hf', hu']
    all_goals omega

/-- C5: the filter keeps a catalog definition for a reporting year exactly
when the year lies in the definition's inclusive validity window (every
bound in the static catalog is a nonzero year, so the JavaScript truthiness
in the source coincides with presence of the bound); and a reporting year
for which no definition passes the filter yields an empty list, not an
error. -/
theorem policy_filter_window :
    (∀ p ∈ policyData, ∀ y : Int, keepPolicy p y = windowSpec p y)
    ∧ (∀ (y : Int) (p : PolicyDefinition),
        p ∈ filterPolicies policyData y ↔ p ∈ policyData ∧ windowSpec p y = true)
    ∧ (∀ (catalog : List PolicyDefinition) (y : Int),
        (∀ p ∈ catalog, keepPolicy p y = false) → filterPolicies catalog y = []) := by
  have hnz : policyData.all (fun p =>
      (p.validFromYear.all (fun f => decide (f ≠ 0)))
      && (p.validUntilYear.all (fun u => decide (u ≠ 0)))) = true := by decide
  have hmain : ∀ p ∈ policyData, ∀ y : Int, keepPolicy p y = windowSpec p y := by
    intro p hp y
    have h := List.all_eq_true.mp hnz p hp
    simp only [Bool.and_eq_true] at h
    refine keepPolicy_eq_windowSpec_of_nonzero p ?_ ?_ y
    · intro f hf
      have h1 := h.1
      rw [hf] at h1
      simpa using h1
    · intro u hu
      have h2 := h.2
      rw [hu] at h2
      simpa using h2
  refine ⟨hmain, ?_, ?_⟩
  · intro y p
    rw [filterPolicies, List.mem_filter]
    constructor
    · rintro ⟨hp, hk⟩
      exact ⟨hp, by rw [← hmain p hp y]; exact hk⟩
    · rintro ⟨hp, hw⟩
      exact ⟨hp, by rw [hmain p hp y]; exact hw⟩
  · intro catalog y h
    rw [filterPolicies, List.filter_eq_nil_iff]
    intro p hp
    simp [h p hp]

/-- C5 witness: the window characterization at the `YsUd6nF0ueJ` definition
(valid until 2023) for the years 2023 and 2024, and the empty filter result
on a one-definition catalog whose window excludes 2024. -/
theorem policy_filter_window_witness :
    keepPolicy
      { intervention := "Diagnosis", strategy := "Malaria diagnosis using RDT is free of charge in the public sector"
      , policyUID := "YsUd6nF0ueJ", yearUID := "wUHmvm2OjXj", validUntilYear := some 2023, displayOrder := some 2 }
      2023
      = windowSpec
        { intervention := "Diagnosis", strategy := "Malaria diagnosis using RDT is free of charge in the public sector"
        , policyUID := "YsUd6nF0ueJ", yearUID := "wUHmvm2OjXj", validUntilYear := some 2023, displayOrder := some 2 }
        2023
    ∧ filterPolicies
        [{ intervention := "Diagnosis", strategy := "Malaria diagnosis using RDT is free of charge in the public sector"
         , policyUID := "YsUd6nF0ueJ", yearUID := "wUHmvm2OjXj", validUntilYear := some 2023, displayOrder := some 2 }]
        2024 = [] :=
  ⟨policy_filter_window.1
    { intervention := "Diagnosis", strategy := "Malaria diagnosis using RDT is free of charge in the public sector"
    , policyUID := "YsUd6nF0ueJ", yearUID := "wUHmvm2OjXj", validUntilYear := some 2023, displayOrder := some 2 }
    (by decide) 2023
  , policy_filter_window.2.2
      [{ intervention := "Diagnosis", strategy := "Malaria diagnosis using RDT is free of charge in the public sector"
       , policyUID := "YsUd6nF0ueJ", yearUID := "wUHmvm2OjXj", validUntilYear := some 2023, displayOrder := some 2 }]
      2024 (by decide)⟩

/-- The comparator key order is transitive (needed by the merge-sort
lemmas). -/
theorem orderKeyLE_trans (a b c : PolicyDefinition)
    (hab : decide (orderKey a ≤ orderKey b) = true)
    (hbc : decide (orderKey b ≤ orderKey c) = true) :
    decide (orderKey a ≤ orderKey c) = true := by
  simp only [decide_eq_true_eq] at *
  omega

/-- The comparator key order is total (needed by the merge-sort lemmas). -/
theorem orderKeyLE_total (a b : PolicyDefinition) :
    (decide (orderKey a ≤ orderKey b) || decide (orderKey b ≤ orderKey a)) = true := by
  simp only [Bool.or_eq_true, decide_eq_true_eq]
  omega

/-- C6 counterexample: the claim treats a missing `displayOrder` as
`+infinity` for every possible numeric `displayOrder` value, which would
put the definition without a `displayOrder` last; the sort actually
substitutes the finite sentinel `999999`, so a definition with
`displayOrder = 1000000` sorts *after* one lacking a `displayOrder`. -/
theorem policy_sort_sentinel_counterexample :
    sortPolicies
      [ { intervention := "A", strategy := "a", policyUID := "p1", yearUID := "y1", displayOrder := some 1000000 }
      , { intervention := "B", strategy := "b", policyUID := "p2", yearUID := "y2" } ]
      = [ { intervention := "B", strategy := "b", policyUID := "p2", yearUID := "y2" }
        , { intervention := "A", strategy := "a", policyUID := "p1", yearUID := "y1", displayOrder := some 1000000 } ]
    ∧ ({ intervention := "B", strategy := "b", policyUID := "p2", yearUID := "y2" }
        : PolicyDefinition).displayOrder = Option.none
    ∧ ({ intervention := "A", strategy := "a", policyUID := "p1", yearUID := "y1", displayOrder := some 1000000 }
        : PolicyDefinition).displayOrder = some 1000000 := by
  refine ⟨?_, by decide, by decide⟩
  simp [sortPolicies, List.mergeSort, List.merge, orderKey]

/-- C6 (amended): the resolver sorts every filtered catalog ascending by the
key `displayOrder ?? 999999` with a stable sort: the output is key-sorted,
is a permutation of the input, every key-sorted sublist of the input (in
particular every pair of tied definitions, in declaration order) survives
as a sublist, and a definition lacking a `displayOrder` never precedes one
whose `displayOrder` is below the sentinel `999999` — but not below an
arbitrary numeric `displayOrder`, since values of `999999` and above sort
at or after missing ones. -/
theorem policy_sort_amended :
    (∀ l : List PolicyDefinition,
        (sortPolicies l).Pairwise (fun a b => orderKey a ≤ orderKey b))
    ∧ (∀ l : List PolicyDefinition, (sortPolicies l).Perm l)
    ∧ (∀ (l c : List PolicyDefinition),
        c.Pairwise (fun a b => orderKey a ≤ orderKey b) → c.Sublist l →
        c.Sublist (sortPolicies l))
    ∧ (∀ (l : List PolicyDefinition) (a b : PolicyDefinition) (k : Int),
        a.displayOrder = Option.none → b.displayOrder = some k → k < 999999 →
        ¬ [a, b].Sublist (sortPolicies l)) := by
  have hsorted : ∀ l : List PolicyDefinition,
      (sortPolicies l).Pairwise (fun a b => orderKey a ≤ orderKey b) := by
    intro l
    have h := @List.sorted_mergeSort PolicyDefinition
      (fun a b => decide (orderKey a ≤ orderKey b))
      orderKeyLE_trans orderKeyLE_total l
    exact h.imp (fun hab => by simpa using hab)
  refine ⟨hsorted, ?_, ?_, ?_⟩
  · intro l
    exact List.mergeSort_perm l _
  · intro l c hc hsub
    exact List.sublist_mergeSort orderKeyLE_trans orderKeyLE_total
      (hc.imp (fun hab => by simpa using hab)) hsub
  · intro l a b k ha hb hk hsub
    have hpair := (hsorted l).sublist hsub
    have hle : orderKey a ≤ orderKey b := by
      have := List.pairwise_cons.mp hpair
      exact this.1 b (List.mem_cons_self b [])
    rw [orderKey, orderKey, ha, hb] at hle
    simp only [Option.getD_none, Option.getD_some] at hle
    omega

/-- C6 witness: the amended sort facts applied to the two-definition list
whose explicit display orders are `5` and `5` (a tie kept in declaration
order) preceded by one missing order. -/
theorem policy_sort_amended_witness :
    ([ { intervention := "A", strategy := "a", policyUID := "p1", yearUID := "y1", displayOrder := some 5 }
     , { intervention := "B", strategy := "b", policyUID := "p2", yearUID := "y2", displayOrder := some 5 } ]
      : List PolicyDefinition).Sublist
      (sortPolicies
        [ { intervention := "A", strategy := "a", policyUID := "p1", yearUID := "y1", displayOrder := some 5 }
        , { intervention := "B", strategy := "b", policyUID := "p2", yearUID := "y2", displayOrder := some 5 } ])
    ∧ ¬ ([ { intervention := "B", strategy := "b", policyUID := "p2", yearUID := "y2" }
         , { intervention := "A", strategy := "a", policyUID := "p1", yearUID := "y1", displayOrder := some 5 } ]
        : List PolicyDefinition).Sublist
        (sortPolicies
          [ { intervention := "B", strategy := "b", policyUID := "p2", yearUID := "y2" }
          , { intervention := "A", strategy := "a", policyUID := "p1", yearUID := "y1", displayOrder := some 5 } ]) :=
  ⟨policy_sort_amended.2.2.1
      [ { intervention := "A", strategy := "a", policyUID := "p1", yearUID := "y1", displayOrder := some 5 }
      , { intervention := "B", strategy := "b", policyUID := "p2", yearUID := "y2", displayOrder := some 5 } ]
      [ { intervention := "A", strategy := "a", policyUID := "p1", yearUID := "y1", displayOrder := some 5 }
      , { intervention := "B", strategy := "b", policyUID := "p2", yearUID := "y2", displayOrder := some 5 } ]
      (by decide) (List.Sublist.refl _)
  , policy_sort_amended.2.2.2
      [ { intervention := "B", strategy := "b", policyUID := "p2", yearUID := "y2" }
      , { intervention := "A", strategy := "a", policyUID := "p1", yearUID := "y1", displayOrder := some 5 } ]
      { intervention := "B", strategy := "b", policyUID := "p2", yearUID := "y2" }
      { intervention := "A", strategy := "a", policyUID := "p1", yearUID := "y1", displayOrder := some 5 }
      5 (by decide) (by decide) (by decide)⟩

/-- C8: when the scope-metadata (country-code) lookup fails, the build
continues with the empty country code; the empty code belongs to none of
the static country lists, so every classification flag takes its
non-special-case branch, and `showEstimates` is decided by the
non-elimination-target (`!isE2025`) disjunct — for any code outside the
elimination-target list it is `true` regardless of the exception list. -/
theorem country_code_failure_fallback :
    (∀ msg : String, countryCodeOf (Except.error msg) = "")
    ∧ E2025_COUNTRIES.contains "" = false
    ∧ estIndigCountriesArray.contains "" = false
    ∧ E2025ShowEstimatesArray.contains "" = false
    ∧ isE2025Country "" = false
    ∧ showEstForIndigCountry "" = false
    ∧ E2025ShowEst "" = false
    ∧ showEstimates "" = true
    ∧ (∀ c : String, isE2025Country c = false → showEstimates c = true) := by
  refine ⟨fun msg => rfl, by decide, by decide, by decide, by decide, by decide,
    by decide, by decide, ?_⟩
  intro c h
  simp [showEstimates, h]

/-- C8 witness: the non-elimination-target branch applied at the empty
country code produced by a failed lookup. -/
theorem country_code_failure_fallback_witness :
    showEstimates (countryCodeOf (Except.error "network error")) = true :=
  country_code_failure_fallback.2.2.2.2.2.2.2.2
    (countryCodeOf (Except.error "network error")) (by decide)

/-- C9 counterexample: the option-set cache is an instance field of the
module-level singleton service, so the cache state left by one
`processCountryData` call is the state the next call starts from.  After a
first build fetches and caches the option set for `DNrGIbNB3oD`, a second
build resolves the same option set from the cache — returning the stale
display name `"Old"` even though the remote catalog now answers `"New"`;
with the per-call empty cache the claim asserts, the second build would
return `"New"`. -/
theorem option_cache_reuse_counterexample :
    (getOptionSetValue (fun _ => Except.ok { options := [{ code := "c", displayName := "Old" }] })
        initialOptionSetCache "DNrGIbNB3oD" "c").1 = "Old"
    ∧ (getOptionSetValue (fun _ => Except.ok { options := [{ code := "c", displayName := "New" }] })
        (getOptionSetValue (fun _ => Except.ok { options := [{ code := "c", displayName := "Old" }] })
            initialOptionSetCache "DNrGIbNB3oD" "c").2 "DNrGIbNB3oD" "c").1 = "Old"
    ∧ (getOptionSetValue (fun _ => Except.ok { options := [{ code := "c", displayName := "New" }] })
        initialOptionSetCache "DNrGIbNB3oD" "c").1 = "New"
    ∧ ("Old" : String) ≠ "New" := by
  refine ⟨by decide, by decide, by decide, by decide⟩

/-- C9 (amended): the option-set cache is initialized once, when the
singleton service is constructed at module load, and is never cleared:
whenever an option-set id is already cached — in particular when a previous
`processCountryData` call cached it — a later resolution is served from the
cache and the fetch function is never consulted; and a resolution that does
fetch stores the fetched option set into the cache that the service carries
into subsequent calls. -/
theorem option_cache_persistence :
    (∀ (laterFetch : String → Except String OptionSet) (cache : OptionSetCache)
        (optionSetId code : String) (os : OptionSet),
        assocLookup cache optionSetId = some os →
        getOptionSetValue laterFetch cache optionSetId code = (findOptionName os code, cache))
    ∧ (∀ (fetch : String → Except String OptionSet) (cache : OptionSetCache)
        (optionSetId code : String) (os : OptionSet),
        assocLookup cache optionSetId = Option.none → fetch optionSetId = Except.ok os →
        (getOptionSetValue fetch cache optionSetId code).2 = assocSet cache optionSetId os) := by
  constructor
  · intro laterFetch cache optionSetId code os h
    rw [getOptionSetValue, h]
  · intro fetch cache optionSetId code os h hf
    rw [getOptionSetValue, h, hf]

/-- C9 witness: a second build's resolution served from the entry cached by
the first build, and the first build's fetch populating the cache. -/
theorem option_cache_persistence_witness :
    getOptionSetValue (fun _ => Except.ok { options := [{ code := "c", displayName := "New" }] })
      [("DNrGIbNB3oD", { options := [{ code := "c", displayName := "Old" }] })] "DNrGIbNB3oD" "c"
      = (findOptionName { options := [{ code := "c", displayName := "Old" }] } "c",
         [("DNrGIbNB3oD", { options := [{ code := "c", displayName := "Old" }] })])
    ∧ (getOptionSetValue (fun _ => Except.ok { options := [{ code := "c", displayName := "Old" }] })
        initialOptionSetCache "DNrGIbNB3oD" "c").2
      = assocSet initialOptionSetCache "DNrGIbNB3oD"
          { options := [{ code := "c", displayName := "Old" }] } :=
  ⟨option_cache_persistence.1 (fun _ => Except.ok { options := [{ code := "c", displayName := "New" }] })
      [("DNrGIbNB3oD", { options := [{ code := "c", displayName := "Old" }] })] "DNrGIbNB3oD" "c"
      { options := [{ code := "c", displayName := "Old" }] } (by decide)
  , option_cache_persistence.2 (fun _ => Except.ok { options := [{ code := "c", displayName := "Old" }] })
      initialOptionSetCache "DNrGIbNB3oD" "c"
      { options := [{ code := "c", displayName := "Old" }] } (by decide) rfl⟩

/-- Rows shorter than four cells leave the value cell's default lookup
empty, which parses to `NaN`. -/
theorem getD_three_eq_empty_of_short (row : List String) (h : row.length < 4) :
    row.getD 3 "" = "" := by
  rw [List.getD_eq_getElem?_getD, List.getElem?_eq_none (by omega)]
  rfl

/-- C10: `transformAnalyticsRows` maps its per-row body over the rows; a row
with fewer than four cells is returned unchanged; a row whose value cell
does not parse as a number (`NaN`) is returned unchanged rather than being
treated as zero; and when the value parses but its transformation result is
null, the output row keeps the original raw string in the value cell — so
`nullZeros` suppression is not observable through this row-level
interface. -/
theorem transformAnalyticsRows_preserving :
    (∀ rows : List (List String), transformAnalyticsRows rows = rows.map transformRow)
    ∧ (∀ row : List String, row.length < 4 → transformRow row = row)
    ∧ (∀ row : List String, jsParseFloat (row.getD 3 "") = Option.none → transformRow row = row)
    ∧ (∀ (row : List String) (v : JSNum), jsParseFloat (row.getD 3 "") = some v →
        transformValue (some v) (row.getD 0 "") = Option.none →
        transformRow row = [row.getD 0 "", row.getD 1 "", row.getD 2 "", row.getD 3 ""]) := by
  refine ⟨fun rows => rfl, ?_, ?_, ?_⟩
  · intro row h
    rw [transformRow, if_pos h]
  · intro row h
    by_cases hlen : row.length < 4
    · rw [transformRow, if_pos hlen]
    · rw [transformRow, if_neg hlen, h]
  · intro row v hparse htv
    have hlen : ¬ row.length < 4 := by
      intro hlt
      rw [getD_three_eq_empty_of_short row hlt,
        (by decide : jsParseFloat "" = Option.none)] at hparse
      exact Option.noConfusion hparse
    rw [transformRow, if_neg hlen, hparse]
    simp only [htv]

/-- C10 witness: a short row and a non-numeric row pass through unchanged,
and the `ZoMFYowPAkO` row with value `"0"` — whose transformation result is
null by `nullZeros` — keeps `"0"` in its value cell. -/
theorem transformAnalyticsRows_preserving_witness :
    transformRow ["onlyOneCell"] = ["onlyOneCell"]
    ∧ transformRow ["BJXyRAkf2HZ", "ou", "2024", "abc"] = ["BJXyRAkf2HZ", "ou", "2024", "abc"]
    ∧ transformRow ["ZoMFYowPAkO", "ou", "2024", "0"]
      = [(["ZoMFYowPAkO", "ou", "2024", "0"] : List String).getD 0 ""
        , (["ZoMFYowPAkO", "ou", "2024", "0"] : List String).getD 1 ""
        , (["ZoMFYowPAkO", "ou", "2024", "0"] : List String).getD 2 ""
        , (["ZoMFYowPAkO", "ou", "2024", "0"] : List String).getD 3 ""] :=
  ⟨transformAnalyticsRows_preserving.2.1 ["onlyOneCell"] (by decide)
  , transformAnalyticsRows_preserving.2.2.1 ["BJXyRAkf2HZ", "ou", "2024", "abc"] (by decide)
  , transformAnalyticsRows_preserving.2.2.2 ["ZoMFYowPAkO", "ou", "2024", "0"] (JSNum.fin 0)
      (by decide)
      (by simp [transformValue, getRules, assocLookup, transformationRules, List.find?,
        runRules, applyRule, jsMul100])⟩

end WMR
